import Mathlib

/-!
Shallow embedding of the sovereign program's governance engine
(`state/creator_dao.rs`, `instructions/creator_dao/resolve_nomination.rs`)
and admission prediction market (`state/admission_market.rs`,
`instructions/admission_market/{create_market,take_position,claim_winnings}.rs`).

Monetary u64 fields are modelled as `Nat`; Rust `saturating_sub` on unsigned
integers coincides with truncated `Nat` subtraction.  Signed i64 timestamps
are `Int`.  Account addresses (`Pubkey`) are opaque and modelled as `Nat`;
a nomination account's address is represented by its `nomination_id`.
Instruction handlers are pure functions from the accounts they touch to
`Except` of the program's error enum, mirroring the Anchor constraints and
`require!` guards in source order.  A separate family of `..._u64` functions
re-runs the `take_position` arithmetic with checked 64-bit semantics
(`none` = the Rust operation would overflow or divide by zero) to settle the
overflow-discipline claim.
-/

namespace Sovereign

abbrev Pubkey := Nat

/-- Modulus of the 64-bit unsigned machine integers used for all pooled
amounts in the source. -/
def u64Lim : Nat := 2 ^ 64

/-- Checked u64 addition: `some` exactly when the Rust `+` on u64 would not
overflow. -/
def chkAdd64 (a b : Nat) : Option Nat :=
  if a + b < u64Lim then some (a + b) else none

/-- Checked u32 addition (for `predictor_count += 1`). -/
def chkAdd32 (a b : Nat) : Option Nat :=
  if a + b < 2 ^ 32 then some (a + b) else none

/-- Checked u64 multiplication: `some` exactly when the Rust `*` on u64 would
not overflow. -/
def chkMul64 (a b : Nat) : Option Nat :=
  if a * b < u64Lim then some (a * b) else none

/-- Checked unsigned subtraction: `some` exactly when the Rust `-` would not
underflow. -/
def chkSub (a b : Nat) : Option Nat :=
  if b ≤ a then some (a - b) else none

/-- Wrapping cast of an integer into i32 range, as Rust `as i32`. -/
def wrapI32 (z : Int) : Int := (z + 2 ^ 31) % 2 ^ 32 - 2 ^ 31

/-- Rust `i32::saturating_add`. -/
def satAddI32 (a b : Int) : Int := max (-(2 ^ 31)) (min (2 ^ 31 - 1) (a + b))

/-- `MarketStatus` from `state/admission_market.rs`. -/
inductive MarketStatus where
  | Open
  | VotingInProgress
  | Resolved
  | Finalized
  | Expired
deriving DecidableEq

/-- `MarketOutcome` from `state/admission_market.rs`. -/
inductive MarketOutcome where
  | Pending
  | Accepted
  | Rejected
  | Cancelled
deriving DecidableEq

/-- `PositionSide` from `instructions/admission_market/take_position.rs`. -/
inductive PositionSide where
  | Yes
  | No
deriving DecidableEq

/-- `AdmissionMarketError` variants reachable from the embedded handlers. -/
inductive MarketErr where
  | MarketNotOpen
  | MarketExpired
  | MarketNotResolved
  | AlreadyClaimed
  | InvalidTradeAmount
  | SlippageExceeded
deriving DecidableEq

/-- `CreatorDAOError` variants reachable from the embedded resolver. -/
inductive DAOErr where
  | DAONotActive
  | AlreadyResolved
  | VotingNotEnded
  | QuorumNotReached
deriving DecidableEq

/-- The `AdmissionMarket` account (numeric and lifecycle fields). -/
structure AdmissionMarket where
  dao : Pubkey
  creator_identity : Pubkey
  yes_pool : Nat
  no_pool : Nat
  predictor_count : Nat
  initial_liquidity : Nat
  fee_bps : Nat
  accumulated_fees : Nat
  expires_at : Int
  status : MarketStatus
  outcome : MarketOutcome
  resolved_by_nomination : Option Pubkey
  resolved_at : Option Int
  burn_percentage_bps : Nat
  amount_burned : Nat
deriving DecidableEq

/-- The `MarketPosition` account. -/
structure MarketPosition where
  yes_tokens : Nat
  no_tokens : Nat
  total_staked : Nat
  opened_at : Int
  last_modified : Int
  claimed : Bool
  payout : Nat
deriving DecidableEq

/-- The `SurfacingScore` account. -/
structure SurfacingScore where
  successful_surfaces : Nat
  markets_created : Nat
  surfacing_accuracy_bps : Nat
  total_profit : Int
  scout_score : Nat
  last_updated : Int
deriving DecidableEq

/-- The `CreatorScoreDetails` account. -/
structure CreatorScoreDetails where
  daos_accepted : Nat
  dao_reputation_points : Nat
  successful_nominations : Nat
  failed_nominations : Nat
  nomination_accuracy_bps : Nat
  prediction_pnl_bps : Int
  predictions_correct : Nat
  predictions_incorrect : Nat
  prediction_accuracy_bps : Nat
  peer_upvotes : Nat
  content_count : Nat
  total_burned : Nat
  first_dao_acceptance : Option Int
  last_updated : Int
deriving DecidableEq

/-- The `CreatorDAO` account (fields used by resolution); `key` models the
account's address. -/
structure CreatorDAO where
  key : Pubkey
  member_count : Nat
  admission_threshold : Nat
  voting_period : Int
  quorum : Nat
  pending_nominations : Nat
  total_admitted : Nat
  total_removed : Nat
  is_active : Bool
  nomination_nonce : Nat
deriving DecidableEq

/-- The `Nomination` account. -/
structure Nomination where
  dao : Pubkey
  nomination_id : Nat
  nominee_identity : Pubkey
  nominee_wallet : Pubkey
  nominator : Pubkey
  created_at : Int
  voting_ends_at : Int
  votes_accept : Nat
  votes_reject : Nat
  votes_abstain : Nat
  total_members_snapshot : Nat
  is_resolved : Bool
  was_accepted : Bool
  resolved_at : Option Int
deriving DecidableEq

/-- The `DAOMembership` account. -/
structure DAOMembership where
  dao : Pubkey
  member_identity : Pubkey
  member_wallet : Pubkey
  admitted_at : Int
  nominated_by : Option Pubkey
  successful_nominations : Nat
  votes_cast : Nat
  is_active : Bool
deriving DecidableEq

/-- `Nomination::has_quorum`: `(total votes) ≥ (snapshot × quorum) / 100`
with truncating integer division, as in the source. -/
def Nomination.has_quorum (n : Nomination) (quorum_threshold : Nat) : Bool :=
  let total_votes := n.votes_accept + n.votes_reject + n.votes_abstain
  let required := n.total_members_snapshot * quorum_threshold / 100
  decide (required ≤ total_votes)

/-- `Nomination.meets_threshold`: zero decisive votes reject; otherwise
`(votes_accept × 100) / decisive ≥ threshold` with truncating division. -/
def Nomination.meets_threshold (n : Nomination) (threshold : Nat) : Bool :=
  let total_decisive := n.votes_accept + n.votes_reject
  if total_decisive = 0 then false
  else
    let accept_pct := n.votes_accept * 100 / total_decisive
    decide (threshold ≤ accept_pct)

/-- `AdmissionMarket::calculate_yes_tokens` (pure constant-product math on
`Nat`; the u64 checked variant is `calculate_yes_tokens_u64`). -/
def AdmissionMarket.calculate_yes_tokens (m : AdmissionMarket) (stake fee_bps : Nat) : Nat :=
  let stake_after_fee := stake - stake * fee_bps / 10000
  if m.yes_pool = 0 then stake_after_fee
  else
    let k := m.yes_pool * m.no_pool
    let new_no_pool := m.no_pool + stake_after_fee
    let new_yes_pool := k / new_no_pool
    m.yes_pool - new_yes_pool

/-- `AdmissionMarket::calculate_no_tokens`. -/
def AdmissionMarket.calculate_no_tokens (m : AdmissionMarket) (stake fee_bps : Nat) : Nat :=
  let stake_after_fee := stake - stake * fee_bps / 10000
  if m.no_pool = 0 then stake_after_fee
  else
    let k := m.yes_pool * m.no_pool
    let new_yes_pool := m.yes_pool + stake_after_fee
    let new_no_pool := k / new_yes_pool
    m.no_pool - new_no_pool

/-- `AdmissionMarket::calculate_payout`: winner's pool-proportional share of
the distributable pot. -/
def AdmissionMarket.calculate_payout (m : AdmissionMarket) (position_tokens : Nat) (is_yes : Bool) : Nat :=
  let winning_pool := if is_yes then m.yes_pool else m.no_pool
  let losing_pool := if is_yes then m.no_pool else m.yes_pool
  if winning_pool = 0 then 0
  else
    let total_pot := winning_pool + losing_pool
    let burn_amount := total_pot * m.burn_percentage_bps / 10000
    let distributable := total_pot - burn_amount - m.accumulated_fees
    distributable * position_tokens / winning_pool

/-- `TakePositionParams` from `take_position.rs`. -/
structure TakePositionParams where
  amount : Nat
  side : PositionSide
  min_tokens : Nat
deriving DecidableEq

/-- A `MarketPosition` freshly initialised by `take_position`'s
`init_if_needed` branch. -/
def freshPosition (now : Int) : MarketPosition :=
  { yes_tokens := 0, no_tokens := 0, total_staked := 0,
    opened_at := now, last_modified := now, claimed := false, payout := 0 }

/-- `take_position` handler.  `position?` is `none` when the position
account was freshly created (`position.market == Pubkey::default()`). -/
def take_position (now : Int) (market : AdmissionMarket) (position? : Option MarketPosition)
    (params : TakePositionParams) : Except MarketErr (AdmissionMarket × MarketPosition) :=
  if market.status ≠ MarketStatus.Open then .error .MarketNotOpen
  else if market.expires_at ≤ now then .error .MarketExpired
  else if params.amount = 0 then .error .InvalidTradeAmount
  else
    let tokens :=
      match params.side with
      | .Yes => market.calculate_yes_tokens params.amount market.fee_bps
      | .No => market.calculate_no_tokens params.amount market.fee_bps
    if tokens < params.min_tokens then .error .SlippageExceeded
    else
      let fee := params.amount * market.fee_bps / 10000
      let amount_after_fee := params.amount - fee
      let market1 :=
        match params.side with
        | .Yes => { market with no_pool := market.no_pool + amount_after_fee,
                                yes_pool := market.yes_pool - tokens }
        | .No => { market with yes_pool := market.yes_pool + amount_after_fee,
                               no_pool := market.no_pool - tokens }
      let market2 := { market1 with accumulated_fees := market1.accumulated_fees + fee }
      let (market3, position0) :=
        match position? with
        | none => ({ market2 with predictor_count := market2.predictor_count + 1 }, freshPosition now)
        | some p => (market2, p)
      let position1 :=
        match params.side with
        | .Yes => { position0 with yes_tokens := position0.yes_tokens + tokens }
        | .No => { position0 with no_tokens := position0.no_tokens + tokens }
      let position2 := { position1 with total_staked := position1.total_staked + params.amount,
                                        last_modified := now }
      .ok (market3, position2)

/-- `MarketFactory` configuration fields read by `create_market`. -/
structure MarketFactory where
  market_count : Nat
  default_fee_bps : Nat
  default_burn_bps : Nat
  min_initial_liquidity : Nat
  creator_bonus_bps : Nat
deriving DecidableEq

/-- `CreateMarketParams` from `create_market.rs`. -/
structure CreateMarketParams where
  initial_liquidity : Nat
  expiry_days : Nat
deriving DecidableEq

/-- `create_market` handler: the produced `AdmissionMarket` account
(liquidity split 50/50, status `Open`, outcome `Pending`). -/
def create_market (factory : MarketFactory) (dao_key creator_identity : Pubkey)
    (params : CreateMarketParams) (now : Int) : Except MarketErr AdmissionMarket :=
  if params.initial_liquidity < factory.min_initial_liquidity then .error .InvalidTradeAmount
  else
    let half_liquidity := params.initial_liquidity / 2
    .ok { dao := dao_key, creator_identity := creator_identity,
          yes_pool := half_liquidity, no_pool := half_liquidity,
          predictor_count := 1,
          initial_liquidity := params.initial_liquidity,
          fee_bps := factory.default_fee_bps,
          accumulated_fees := 0,
          expires_at := now + params.expiry_days * 86400,
          status := .Open, outcome := .Pending,
          resolved_by_nomination := none, resolved_at := none,
          burn_percentage_bps := factory.default_burn_bps,
          amount_burned := 0 }

/-- Market settlement performed inside `resolve_nomination` (lines 207-221):
status `Resolved`, outcome mirrors the vote, burn computed once from the
total pool. -/
def resolve_market (m : AdmissionMarket) (was_accepted : Bool) (nomination_key : Pubkey)
    (now : Int) : AdmissionMarket :=
  let total_pool := m.yes_pool + m.no_pool
  let burn_amount := total_pool * m.burn_percentage_bps / 10000
  { m with status := .Resolved,
           outcome := if was_accepted then .Accepted else .Rejected,
           resolved_by_nomination := some nomination_key,
           resolved_at := some now,
           amount_burned := burn_amount }

/-- The optional linked-market step of `resolve_nomination`: settle the
market only when its `dao` and `creator_identity` match, and add the burn to
the nominee's `total_burned`. -/
def settle_linked (dao_key : Pubkey) (nomination : Nomination) (now : Int) (was_accepted : Bool)
    (cs : CreatorScoreDetails) (market? : Option AdmissionMarket) :
    Option AdmissionMarket × CreatorScoreDetails :=
  match market? with
  | none => (none, cs)
  | some m =>
      if m.dao = dao_key ∧ m.creator_identity = nomination.nominee_identity then
        let m' := resolve_market m was_accepted nomination.nomination_id now
        (some m', { cs with total_burned := cs.total_burned + m'.amount_burned })
      else (some m, cs)

/-- Tiered prestige bonus from `resolve_nomination` (match on
`dao.member_count` after the accept-increment). -/
def prestige_bonus (member_count : Nat) : Nat :=
  if member_count ≤ 10 then 100
  else if member_count ≤ 50 then 200
  else if member_count ≤ 100 then 300
  else if member_count ≤ 150 then 400
  else 500

/-- All accounts touched by `resolve_nomination`. -/
structure ResolveState where
  dao : CreatorDAO
  nomination : Nomination
  creator_score : CreatorScoreDetails
  nominator_membership : DAOMembership
  new_membership : Option DAOMembership
  market : Option AdmissionMarket
deriving DecidableEq

/-- `resolve_nomination` handler: Anchor constraints (`dao.is_active`,
`!nomination.is_resolved`), voting-window and quorum guards, then the
accept/reject state transition and optional linked-market settlement. -/
def resolve_nomination (now : Int) (s : ResolveState) : Except DAOErr ResolveState :=
  if s.dao.is_active = false then .error .DAONotActive
  else if s.nomination.is_resolved = true then .error .AlreadyResolved
  else if now ≤ s.nomination.voting_ends_at then .error .VotingNotEnded
  else if s.nomination.has_quorum s.dao.quorum = false then .error .QuorumNotReached
  else
    let was_accepted := s.nomination.meets_threshold s.dao.admission_threshold
    let nomination := { s.nomination with is_resolved := true, was_accepted := was_accepted,
                                          resolved_at := some now }
    let dao0 := { s.dao with pending_nominations := s.dao.pending_nominations - 1 }
    if was_accepted then
      let dao := { dao0 with total_admitted := dao0.total_admitted + 1,
                             member_count := dao0.member_count + 1 }
      let new_membership : DAOMembership :=
        { dao := dao.key, member_identity := nomination.nominee_identity,
          member_wallet := nomination.nominee_wallet, admitted_at := now,
          nominated_by := some nomination.nominator,
          successful_nominations := 0, votes_cast := 0, is_active := true }
      let nominator_membership :=
        { s.nominator_membership with
            successful_nominations := s.nominator_membership.successful_nominations + 1 }
      let cs0 := { s.creator_score with daos_accepted := s.creator_score.daos_accepted + 1 }
      let cs1 := if cs0.first_dao_acceptance.isNone then
                   { cs0 with first_dao_acceptance := some now }
                 else cs0
      let cs2 := { cs1 with
          dao_reputation_points := cs1.dao_reputation_points + prestige_bonus dao.member_count,
          last_updated := now }
      let settled := settle_linked dao.key nomination now true cs2 s.market
      .ok { dao := dao, nomination := nomination, creator_score := settled.2,
            nominator_membership := nominator_membership,
            new_membership := some new_membership, market := settled.1 }
    else
      let dao := { dao0 with total_removed := dao0.total_removed + 1 }
      let cs := { s.creator_score with
          failed_nominations := s.creator_score.failed_nominations + 1 }
      let settled := settle_linked dao.key nomination now false cs s.market
      .ok { dao := dao, nomination := nomination, creator_score := settled.2,
            nominator_membership := s.nominator_membership,
            new_membership := none, market := settled.1 }

/-- Accounts touched by `claim_winnings`; the optional score accounts mirror
the optional `creator_score` and `surfacing_score` accounts. -/
structure ClaimState where
  market : AdmissionMarket
  position : MarketPosition
  creator_score : Option CreatorScoreDetails
  surfacing_score : Option SurfacingScore
deriving DecidableEq

/-- Losing-claim update of the claimant's prediction-accuracy counters. -/
def record_prediction_incorrect (now : Int) (cs : CreatorScoreDetails) : CreatorScoreDetails :=
  let wrong := cs.predictions_incorrect + 1
  let total := cs.predictions_correct + wrong
  { cs with predictions_incorrect := wrong,
            prediction_accuracy_bps :=
              if 0 < total then cs.predictions_correct * 10000 / total else 0,
            last_updated := now }

/-- Winning-claim update of the claimant's prediction-accuracy counters and
saturating P&L accumulator (Rust i64 division truncates toward zero, the
`as i32` cast wraps, `saturating_add` saturates). -/
def record_prediction_correct (now : Int) (payout staked : Nat)
    (cs : CreatorScoreDetails) : CreatorScoreDetails :=
  let correct := cs.predictions_correct + 1
  let total := correct + cs.predictions_incorrect
  let pnl : Int := (payout : Int) - (staked : Int)
  let pnl_bps : Int := if 0 < staked then wrapI32 ((pnl * 10000).tdiv (staked : Int)) else 0
  { cs with predictions_correct := correct,
            prediction_accuracy_bps :=
              if 0 < total then correct * 10000 / total else 0,
            prediction_pnl_bps := satAddI32 cs.prediction_pnl_bps pnl_bps,
            last_updated := now }

/-- `SurfacingScore::calculate_scout_score`. -/
def SurfacingScore.calculate_scout_score (s : SurfacingScore) : Nat :=
  if s.markets_created = 0 then 0
  else
    let accuracy := s.surfacing_accuracy_bps * 50 / 100
    let volume_tier :=
      if s.markets_created ≤ 5 then 2000
      else if s.markets_created ≤ 20 then 4000
      else if s.markets_created ≤ 50 then 6000
      else if s.markets_created ≤ 100 then 8000
      else 10000
    let volume := volume_tier * 30 / 100
    let profit_tier :=
      if s.total_profit ≤ 0 then 2000
      else if s.total_profit ≤ 1000000000 then 4000
      else if s.total_profit ≤ 10000000000 then 6000
      else if s.total_profit ≤ 100000000000 then 8000
      else 10000
    let profit := profit_tier * 20 / 100
    min (accuracy + volume + profit) 10000

/-- Market-creator bonus branch of `claim_winnings` (only on an `Accepted`
outcome). -/
def surfacing_bonus (now : Int) (is_yes : Bool) (sc : SurfacingScore) : SurfacingScore :=
  if is_yes then
    let successes := sc.successful_surfaces + 1
    let acc := if 0 < sc.markets_created then successes * 10000 / sc.markets_created else 0
    let sc1 := { sc with successful_surfaces := successes, surfacing_accuracy_bps := acc }
    { sc1 with scout_score := sc1.calculate_scout_score, last_updated := now }
  else sc

/-- The decided-outcome tail of `claim_winnings`: losing positions are marked
claimed with payout 0; winning positions receive `calculate_payout` and the
score updates.  `is_yes` is `outcome == Accepted`;
`is_creator` models `predictor.key() == market.market_creator`. -/
def claim_decided (now : Int) (s : ClaimState) (is_creator is_yes : Bool)
    (winning_tokens : Nat) : ClaimState :=
  if winning_tokens = 0 then
    { s with position := { s.position with claimed := true, payout := 0 },
             creator_score := s.creator_score.map (record_prediction_incorrect now) }
  else
    let payout := s.market.calculate_payout winning_tokens is_yes
    { s with
        position := { s.position with claimed := true, payout := payout },
        creator_score :=
          s.creator_score.map (record_prediction_correct now payout s.position.total_staked),
        surfacing_score :=
          if is_creator then s.surfacing_score.map (surfacing_bonus now is_yes)
          else s.surfacing_score }

/-- `claim_winnings` handler: requires status `Resolved` and an unclaimed
position; `Cancelled` refunds `total_staked`; `Pending` is rejected;
`Accepted`/`Rejected` dispatch on the matching token side. -/
def claim_winnings (now : Int) (s : ClaimState) (is_creator : Bool) :
    Except MarketErr ClaimState :=
  if s.market.status ≠ MarketStatus.Resolved then .error .MarketNotResolved
  else if s.position.claimed = true then .error .AlreadyClaimed
  else
    match s.market.outcome with
    | .Pending => .error .MarketNotResolved
    | .Cancelled =>
        .ok { s with position := { s.position with claimed := true,
                                                   payout := s.position.total_staked } }
    | .Accepted => .ok (claim_decided now s is_creator true s.position.yes_tokens)
    | .Rejected => .ok (claim_decided now s is_creator false s.position.no_tokens)

/-- `AdmissionMarket::calculate_yes_tokens` re-run with checked u64
semantics: `none` where the Rust u64 `*`, `-` or `+` would overflow, where
the u128 division would divide by zero; the u128→u64 cast of `new_yes_pool`
truncates. -/
def AdmissionMarket.calculate_yes_tokens_u64 (m : AdmissionMarket) (stake fee_bps : Nat) :
    Option Nat :=
  match chkMul64 stake fee_bps with
  | none => none
  | some t =>
    match chkSub stake (t / 10000) with
    | none => none
    | some stake_after_fee =>
      if m.yes_pool = 0 then some stake_after_fee
      else
        match chkAdd64 m.no_pool stake_after_fee with
        | none => none
        | some new_no_pool =>
          if new_no_pool = 0 then none
          else
            let k := m.yes_pool * m.no_pool
            let new_yes_pool := k / new_no_pool % u64Lim
            chkSub m.yes_pool new_yes_pool

/-- `AdmissionMarket::calculate_no_tokens` with checked u64 semantics. -/
def AdmissionMarket.calculate_no_tokens_u64 (m : AdmissionMarket) (stake fee_bps : Nat) :
    Option Nat :=
  match chkMul64 stake fee_bps with
  | none => none
  | some t =>
    match chkSub stake (t / 10000) with
    | none => none
    | some stake_after_fee =>
      if m.no_pool = 0 then some stake_after_fee
      else
        match chkAdd64 m.yes_pool stake_after_fee with
        | none => none
        | some new_yes_pool =>
          if new_yes_pool = 0 then none
          else
            let k := m.yes_pool * m.no_pool
            let new_no_pool := k / new_yes_pool % u64Lim
            chkSub m.no_pool new_no_pool

/-- The `take_position` handler re-run with checked 64-bit semantics: outer
`none` means some Rust arithmetic on the path would overflow, underflow or
divide by zero; the inner `Except` is the instruction result.  Pool
subtraction of issued tokens is `saturating_sub` in the source, so it stays
unchecked `Nat` subtraction. -/
def take_position_u64 (now : Int) (market : AdmissionMarket) (position? : Option MarketPosition)
    (params : TakePositionParams) : Option (Except MarketErr (AdmissionMarket × MarketPosition)) :=
  if market.status ≠ MarketStatus.Open then some (.error .MarketNotOpen)
  else if market.expires_at ≤ now then some (.error .MarketExpired)
  else if params.amount = 0 then some (.error .InvalidTradeAmount)
  else
    match (match params.side with
           | .Yes => market.calculate_yes_tokens_u64 params.amount market.fee_bps
           | .No => market.calculate_no_tokens_u64 params.amount market.fee_bps) with
    | none => none
    | some tokens =>
      if tokens < params.min_tokens then some (.error .SlippageExceeded)
      else
        match chkMul64 params.amount market.fee_bps with
        | none => none
        | some t =>
          match chkSub params.amount (t / 10000) with
          | none => none
          | some amount_after_fee =>
            let fee := t / 10000
            match (match params.side with
                   | .Yes => chkAdd64 market.no_pool amount_after_fee
                   | .No => chkAdd64 market.yes_pool amount_after_fee) with
            | none => none
            | some grown_pool =>
              let market1 :=
                match params.side with
                | .Yes => { market with no_pool := grown_pool,
                                        yes_pool := market.yes_pool - tokens }
                | .No => { market with yes_pool := grown_pool,
                                       no_pool := market.no_pool - tokens }
              match chkAdd64 market1.accumulated_fees fee with
              | none => none
              | some fees =>
                let market2 := { market1 with accumulated_fees := fees }
                match (match position? with
                       | none =>
                         (chkAdd32 market2.predictor_count 1).map
                           (fun c => ({ market2 with predictor_count := c }, freshPosition now))
                       | some p => some (market2, p)) with
                | none => none
                | some mp =>
                  let market3 := mp.1
                  let position0 := mp.2
                  match (match params.side with
                         | .Yes => (chkAdd64 position0.yes_tokens tokens).map
                             (fun v => { position0 with yes_tokens := v })
                         | .No => (chkAdd64 position0.no_tokens tokens).map
                             (fun v => { position0 with no_tokens := v })) with
                  | none => none
                  | some position1 =>
                    match chkAdd64 position1.total_staked params.amount with
                    | none => none
                    | some staked =>
                      some (.ok (market3, { position1 with total_staked := staked,
                                                           last_modified := now }))

/-! Concrete states used by counterexamples, code-bug evaluations and
witnesses.  `exM7` is the spec's worked market scenario
(`initial_liquidity = 1,000,000`, `fee_bps = 100`). -/

/-- Factory configuration for the worked scenario. -/
def exFactory : MarketFactory :=
  { market_count := 0, default_fee_bps := 100, default_burn_bps := 0,
    min_initial_liquidity := 1000000, creator_bonus_bps := 0 }

/-- The market produced by `create_market` with liquidity 1,000,000 at fee
100 bps: both pools 500,000. -/
def exM7 : AdmissionMarket :=
  { dao := 11, creator_identity := 22, yes_pool := 500000, no_pool := 500000,
    predictor_count := 1, initial_liquidity := 1000000, fee_bps := 100,
    accumulated_fees := 0, expires_at := 2592000, status := .Open, outcome := .Pending,
    resolved_by_nomination := none, resolved_at := none, burn_percentage_bps := 0,
    amount_burned := 0 }

/-- The spec's worked trade: YES for 100,000. -/
def exParams7 : TakePositionParams := { amount := 100000, side := .Yes, min_tokens := 0 }

/-- Market state after the worked trade. -/
def exM7t : AdmissionMarket :=
  { exM7 with yes_pool := 417362, no_pool := 599000, accumulated_fees := 1000,
              predictor_count := 2 }

/-- Position after the worked trade. -/
def exPos7t : MarketPosition :=
  { yes_tokens := 82638, no_tokens := 0, total_staked := 100000,
    opened_at := 0, last_modified := 0, claimed := false, payout := 0 }

/-- A fee-free copy of the worked market, for the payout-conservation run. -/
def exM1 : AdmissionMarket := { exM7 with fee_bps := 0 }

/-- A single large YES buy that drains most of the YES pool. -/
def exParams1 : TakePositionParams := { amount := 2500000, side := .Yes, min_tokens := 0 }

/-- Full pipeline for the payout-conservation run: trade, settle as
`Accepted`, then claim the lone position. -/
def exC1_claim : Except MarketErr ClaimState :=
  match take_position 0 exM1 none exParams1 with
  | .error e => .error e
  | .ok r => claim_winnings 2
      { market := resolve_market r.1 true 7 1, position := r.2,
        creator_score := none, surfacing_score := none } false

/-- A baseline DAO (active, quorum 55, threshold 60, 10 members). -/
def exDao : CreatorDAO :=
  { key := 11, member_count := 10, admission_threshold := 60, voting_period := 86400,
    quorum := 55, pending_nominations := 1, total_admitted := 0, total_removed := 0,
    is_active := true, nomination_nonce := 1 }

/-- A zeroed creator-score record. -/
def exScore0 : CreatorScoreDetails :=
  { daos_accepted := 0, dao_reputation_points := 0, successful_nominations := 0,
    failed_nominations := 0, nomination_accuracy_bps := 0, prediction_pnl_bps := 0,
    predictions_correct := 0, predictions_incorrect := 0, prediction_accuracy_bps := 0,
    peer_upvotes := 0, content_count := 0, total_burned := 0,
    first_dao_acceptance := none, last_updated := 0 }

/-- The nominator's membership record. -/
def exMembership0 : DAOMembership :=
  { dao := 11, member_identity := 44, member_wallet := 44, admitted_at := 0,
    nominated_by := none, successful_nominations := 0, votes_cast := 0, is_active := true }

/-- A baseline open nomination: 5 accept / 0 reject / 0 abstain out of a
10-member snapshot, voting window already over at `now = 100`. -/
def exNom : Nomination :=
  { dao := 11, nomination_id := 1, nominee_identity := 22, nominee_wallet := 33,
    nominator := 44, created_at := 0, voting_ends_at := 10, votes_accept := 5,
    votes_reject := 0, votes_abstain := 0, total_members_snapshot := 10,
    is_resolved := false, was_accepted := false, resolved_at := none }

/-- Resolution state with 5 of 10 votes under quorum 55: floor gives
required = 5, ceil would give 6. -/
def exS3 : ResolveState :=
  { dao := exDao, nomination := exNom, creator_score := exScore0,
    nominator_membership := exMembership0, new_membership := none, market := none }

/-- The spec's quorum scenario: snapshot 10, quorum 50, only 4 votes. -/
def exS3w : ResolveState :=
  { exS3 with dao := { exDao with quorum := 50 },
              nomination := { exNom with votes_accept := 3, votes_abstain := 1 } }

/-- A 1-1 tie with threshold 50 (quorum met). -/
def exS4 : ResolveState :=
  { exS3 with dao := { exDao with admission_threshold := 50, quorum := 100 },
              nomination := { exNom with votes_accept := 1, votes_reject := 1,
                                         total_members_snapshot := 2 } }

/-- A 2-2 tie with threshold 60 (quorum met). -/
def exS4w : ResolveState :=
  { exS3 with dao := { exDao with admission_threshold := 60, quorum := 100 },
              nomination := { exNom with votes_accept := 2, votes_reject := 2,
                                         total_members_snapshot := 4 } }

/-- An accepted nomination into a 9-member DAO whose nominee already has 50
reputation points. -/
def exS6 : ResolveState :=
  { exS3 with dao := { exDao with member_count := 9, quorum := 50 },
              creator_score := { exScore0 with dao_reputation_points := 50 },
              nomination := { exNom with votes_accept := 3, votes_abstain := 1,
                                         total_members_snapshot := 4 } }

/-- The spec's acceptance scenario: 6 accept, 2 reject, 2 abstain,
threshold 70. -/
def exS8 : ResolveState :=
  { exS3 with dao := { exDao with admission_threshold := 70, quorum := 50 },
              nomination := { exNom with votes_accept := 6, votes_reject := 2,
                                         votes_abstain := 2 } }

/-- A cancelled, resolved market and an unclaimed position holding tokens. -/
def exS9 : ClaimState :=
  { market := { exM7 with status := .Resolved, outcome := .Cancelled },
    position := { yes_tokens := 5, no_tokens := 7, total_staked := 120,
                  opened_at := 0, last_modified := 0, claimed := false, payout := 0 },
    creator_score := none, surfacing_score := none }

/-- A resolved `Accepted` market with an unclaimed winning position. -/
def exS10 : ClaimState :=
  { market := { exM7 with yes_pool := 100, no_pool := 200, status := .Resolved,
                          outcome := .Accepted },
    position := { yes_tokens := 50, no_tokens := 0, total_staked := 60,
                  opened_at := 0, last_modified := 0, claimed := false, payout := 0 },
    creator_score := none, surfacing_score := none }

/-- The state `claim_winnings` produces from `exS10`. -/
def exRes10 : ClaimState :=
  { exS10 with position := { exS10.position with claimed := true, payout := 150 } }

/-! Theorems settling the claims. -/

/-- C1: payout conservation fails on the code.  On the fee-free market
seeded 500,000/500,000, a single `takePosition(Yes, 2,500,000)` followed by
an `Accepted` settlement leaves pools 83,333/3,000,000, and the lone
position's `claimWinnings` payout is 15,416,739 — about five times
`yes_pool + no_pool - amount_burned - accumulated_fees = 3,083,333` —
because `calculate_payout` divides by the depleted AMM reserve rather than
by the outstanding winning tokens.  This evaluates the embedded code at
that failing input. -/
theorem C1_payout_exceeds_pot :
    exC1_claim.toOption.map
        (fun s => (s.position.payout,
          s.market.yes_pool + s.market.no_pool - s.market.amount_burned
            - s.market.accumulated_fees))
      = some (15416739, 3083333) ∧ (3083333 : Nat) < 15416739 :=
  ⟨rfl, by decide⟩

/-- C2 counterexample: the claim `yes_pool × no_pool` never decreases is
false.  The spec's own worked trade (pools 500,000/500,000, fee 100 bps,
YES for 100,000) yields pools 417,362/599,000 with product
249,999,838,000 < 250,000,000,000, because the new YES pool is the floor of
`k / new_no_pool`. -/
theorem C2_product_decreases :
    take_position 0 exM7 none exParams7 = .ok (exM7t, exPos7t) ∧
      exM7t.yes_pool * exM7t.no_pool < exM7.yes_pool * exM7.no_pool :=
  ⟨rfl, by decide⟩

/-- C3 counterexample: the quorum check is a floor, not a ceiling.  With
snapshot 10, quorum 55 and 5 votes, `resolveNomination` succeeds (the check
passes with required = ⌊550/100⌋ = 5) although 5 < ⌈550/100⌉ = 6, i.e.
`100 × total_votes < snapshot × quorum`. -/
theorem C3_quorum_not_ceiling :
    (resolve_nomination 100 exS3).toOption.isSome = true ∧
      (exS3.nomination.votes_accept + exS3.nomination.votes_reject +
          exS3.nomination.votes_abstain) * 100 <
        exS3.nomination.total_members_snapshot * exS3.dao.quorum := by
  decide

/-- C4 counterexample: a 1-1 tie with `admission_threshold = 50` resolves
to acceptance (`accept_pct = 50 ≥ 50`), refuting the claim that every tie
is rejected for every threshold in `1..=100`. -/
theorem C4_tie_accepted_at_50 :
    (resolve_nomination 100 exS4).toOption.map (fun r => r.nomination.was_accepted)
        = some true ∧
      exS4.nomination.votes_accept = exS4.nomination.votes_reject ∧
      1 ≤ exS4.dao.admission_threshold ∧ exS4.dao.admission_threshold ≤ 100 := by
  decide

/-- C5 counterexample: the fee computation `amount * fee_bps` is a plain
u64 multiplication.  At the valid u64 amount `2^62` with `fee_bps = 100` it
overflows (checked semantics return `none`), refuting the claim that all
arithmetic on pooled amounts is saturating or 128-bit-widened. -/
theorem C5_fee_multiplication_overflows :
    take_position_u64 0 exM7 none { amount := 2 ^ 62, side := .Yes, min_tokens := 0 }
        = none ∧
      chkMul64 (2 ^ 62) exM7.fee_bps = none ∧ 2 ^ 62 < u64Lim :=
  ⟨rfl, by decide, by decide⟩

/-- Helper: with `fee_bps ≤ 10000` the fee never exceeds the stake. -/
theorem fee_le_stake (stake fee_bps : Nat) (hfee : fee_bps ≤ 10000) :
    stake * fee_bps / 10000 ≤ stake := by
  have h1 : stake * fee_bps ≤ stake * 10000 := Nat.mul_le_mul_left stake hfee
  have h2 : stake * fee_bps / 10000 ≤ stake * 10000 / 10000 := Nat.div_le_div_right h1
  have h3 : stake * 10000 / 10000 = stake := Nat.mul_div_left stake (by omega)
  omega

/-- Helper: dividing `k = y·n` by the grown pool `n + a` stays below `y`. -/
theorem div_grown_le (y n a : Nat) (hn : n ≠ 0) : y * n / (n + a) ≤ y := by
  have h1 : y * n / (n + a) ≤ y * n / n :=
    Nat.div_le_div_left (Nat.le_add_right n a) (Nat.pos_of_ne_zero hn)
  have h2 : y * n / n = y := Nat.mul_div_left y (Nat.pos_of_ne_zero hn)
  omega

/-- Helper: under the no-overflow bounds, checked `calculate_yes_tokens`
agrees with the unbounded model. -/
theorem calculate_yes_tokens_u64_eq (m : AdmissionMarket) (stake : Nat)
    (hmul : stake * m.fee_bps < u64Lim)
    (hfee : m.fee_bps ≤ 10000)
    (hyes : m.yes_pool ≠ 0) (hno : m.no_pool ≠ 0)
    (hyb : m.yes_pool < u64Lim) (hnb : m.no_pool + stake < u64Lim) :
    m.calculate_yes_tokens_u64 stake m.fee_bps
      = some (m.calculate_yes_tokens stake m.fee_bps) := by
  have hfle : stake * m.fee_bps / 10000 ≤ stake := fee_le_stake stake m.fee_bps hfee
  have hsafb : m.no_pool + (stake - stake * m.fee_bps / 10000) < u64Lim := by omega
  have hnz : ¬ m.no_pool + (stake - stake * m.fee_bps / 10000) = 0 := by
    have := Nat.pos_of_ne_zero hno
    omega
  have hdle : m.yes_pool * m.no_pool / (m.no_pool + (stake - stake * m.fee_bps / 10000))
      ≤ m.yes_pool := div_grown_le m.yes_pool m.no_pool _ hno
  have hmodid : m.yes_pool * m.no_pool / (m.no_pool + (stake - stake * m.fee_bps / 10000)) % u64Lim
      = m.yes_pool * m.no_pool / (m.no_pool + (stake - stake * m.fee_bps / 10000)) :=
    Nat.mod_eq_of_lt (by omega)
  simp only [AdmissionMarket.calculate_yes_tokens_u64, AdmissionMarket.calculate_yes_tokens,
    chkMul64, chkSub, chkAdd64, if_pos hmul, if_pos hfle, if_neg hyes, if_pos hsafb,
    if_neg hnz, hmodid, if_pos hdle]

/-- Helper: checked `calculate_no_tokens` agrees with the unbounded model. -/
theorem calculate_no_tokens_u64_eq (m : AdmissionMarket) (stake : Nat)
    (hmul : stake * m.fee_bps < u64Lim)
    (hfee : m.fee_bps ≤ 10000)
    (hyes : m.yes_pool ≠ 0) (hno : m.no_pool ≠ 0)
    (hnb : m.no_pool < u64Lim) (hyb : m.yes_pool + stake < u64Lim) :
    m.calculate_no_tokens_u64 stake m.fee_bps
      = some (m.calculate_no_tokens stake m.fee_bps) := by
  have hfle : stake * m.fee_bps / 10000 ≤ stake := fee_le_stake stake m.fee_bps hfee
  have hsafb : m.yes_pool + (stake - stake * m.fee_bps / 10000) < u64Lim := by omega
  have hnz : ¬ m.yes_pool + (stake - stake * m.fee_bps / 10000) = 0 := by
    have := Nat.pos_of_ne_zero hyes
    omega
  have hdle : m.yes_pool * m.no_pool / (m.yes_pool + (stake - stake * m.fee_bps / 10000))
      ≤ m.no_pool := by
    have h := div_grown_le m.no_pool m.yes_pool (stake - stake * m.fee_bps / 10000) hyes
    rw [Nat.mul_comm] at h
    exact h
  have hmodid : m.yes_pool * m.no_pool / (m.yes_pool + (stake - stake * m.fee_bps / 10000)) % u64Lim
      = m.yes_pool * m.no_pool / (m.yes_pool + (stake - stake * m.fee_bps / 10000)) :=
    Nat.mod_eq_of_lt (by omega)
  simp only [AdmissionMarket.calculate_no_tokens_u64, AdmissionMarket.calculate_no_tokens,
    chkMul64, chkSub, chkAdd64, if_pos hmul, if_pos hfle, if_neg hno, if_pos hsafb,
    if_neg hnz, hmodid, if_pos hdle]

/-- C5 (amended): the `take_position` arithmetic is overflow-free only
under explicit bounds — `amount × fee_bps < 2^64`, `fee_bps ≤ 10000`,
nonzero pools, and headroom in every pool, fee, counter and position sum:
under these the checked-u64 run agrees with the unbounded model.  (The
counterexample shows the bounds are necessary: the fee multiplication is a
plain u64 `*`, only the burn and payout-share computations are
128-bit-widened, and only pool-token subtraction is saturating.) -/
theorem C5_checked_no_overflow (now : Int) (m : AdmissionMarket) (p? : Option MarketPosition)
    (prm : TakePositionParams)
    (hfee : m.fee_bps ≤ 10000)
    (hmul : prm.amount * m.fee_bps < u64Lim)
    (hyes : m.yes_pool ≠ 0) (hno : m.no_pool ≠ 0)
    (hyb : m.yes_pool + prm.amount < u64Lim)
    (hnb : m.no_pool + prm.amount < u64Lim)
    (hfb : m.accumulated_fees + prm.amount < u64Lim)
    (hpc : m.predictor_count + 1 < 2 ^ 32)
    (hq : ∀ q, p? = some q →
      q.yes_tokens + m.yes_pool < u64Lim ∧ q.no_tokens + m.no_pool < u64Lim ∧
        q.total_staked + prm.amount < u64Lim) :
    take_position_u64 now m p? prm = some (take_position now m p? prm) := by
  by_cases h1 : m.status ≠ MarketStatus.Open
  · simp [take_position_u64, take_position, h1]
  by_cases h2 : m.expires_at ≤ now
  · simp [take_position_u64, take_position, h1, h2]
  by_cases h3 : prm.amount = 0
  · simp [take_position_u64, take_position, h1, h2, h3]
  have hfle : prm.amount * m.fee_bps / 10000 ≤ prm.amount := fee_le_stake _ _ hfee
  have hA : m.no_pool + (prm.amount - prm.amount * m.fee_bps / 10000) < u64Lim := by omega
  have hB : m.yes_pool + (prm.amount - prm.amount * m.fee_bps / 10000) < u64Lim := by omega
  have hD : m.accumulated_fees + prm.amount * m.fee_bps / 10000 < u64Lim := by omega
  have hamt : prm.amount < u64Lim := by omega
  have hpc4 : m.predictor_count + 1 < 4294967296 := by omega
  cases hs : prm.side
  · -- YES side
    have hcalc := calculate_yes_tokens_u64_eq m prm.amount hmul hfee hyes hno
      (by omega) (by omega)
    have htok_le : m.calculate_yes_tokens prm.amount m.fee_bps ≤ m.yes_pool := by
      unfold AdmissionMarket.calculate_yes_tokens
      rw [if_neg hyes]
      exact Nat.sub_le _ _
    have htb : m.calculate_yes_tokens prm.amount m.fee_bps < u64Lim := by omega
    by_cases h4 : m.calculate_yes_tokens prm.amount m.fee_bps < prm.min_tokens
    · simp [take_position_u64, take_position, h1, h2, h3, hs, hcalc, h4]
    · cases p? with
      | none =>
        simp [take_position_u64, take_position, h1, h2, h3, hs, hcalc, h4, freshPosition,
          chkMul64, chkSub, chkAdd64, chkAdd32, hmul, hfle, hA, hD, hpc4, htb, hamt]
      | some q =>
        obtain ⟨hq1, hq2, hq3⟩ := hq q rfl
        have hqy : q.yes_tokens + m.calculate_yes_tokens prm.amount m.fee_bps < u64Lim := by
          omega
        simp [take_position_u64, take_position, h1, h2, h3, hs, hcalc, h4,
          chkMul64, chkSub, chkAdd64, hmul, hfle, hA, hD, hqy, hq3]
  · -- NO side
    have hcalc := calculate_no_tokens_u64_eq m prm.amount hmul hfee hyes hno
      (by omega) (by omega)
    have htok_le : m.calculate_no_tokens prm.amount m.fee_bps ≤ m.no_pool := by
      unfold AdmissionMarket.calculate_no_tokens
      rw [if_neg hno]
      exact Nat.sub_le _ _
    have htb : m.calculate_no_tokens prm.amount m.fee_bps < u64Lim := by omega
    by_cases h4 : m.calculate_no_tokens prm.amount m.fee_bps < prm.min_tokens
    · simp [take_position_u64, take_position, h1, h2, h3, hs, hcalc, h4]
    · cases p? with
      | none =>
        simp [take_position_u64, take_position, h1, h2, h3, hs, hcalc, h4, freshPosition,
          chkMul64, chkSub, chkAdd64, chkAdd32, hmul, hfle, hB, hD, hpc4, htb, hamt]
      | some q =>
        obtain ⟨hq1, hq2, hq3⟩ := hq q rfl
        have hqn : q.no_tokens + m.calculate_no_tokens prm.amount m.fee_bps < u64Lim := by
          omega
        simp [take_position_u64, take_position, h1, h2, h3, hs, hcalc, h4,
          chkMul64, chkSub, chkAdd64, hmul, hfle, hB, hD, hqn, hq3]

/-- C5 witness: the worked trade (amount 100,000, fee 100 bps, pools
500,000) is within the no-overflow bounds, and the checked run agrees with
the model. -/
theorem C5_checked_no_overflow_witness :
    take_position_u64 0 exM7 none exParams7 = some (take_position 0 exM7 none exParams7) :=
  C5_checked_no_overflow 0 exM7 none exParams7 (by decide) (by decide) (by decide)
    (by decide) (by decide) (by decide) (by decide) (by decide)
    (fun q hq => nomatch hq)

/-- C9: a claim against a `Resolved` market with outcome `Cancelled` always
succeeds, refunds exactly `total_staked` and marks the position claimed,
regardless of the position's token holdings. -/
theorem C9_cancelled_refund (now : Int) (s : ClaimState) (ic : Bool)
    (hres : s.market.status = MarketStatus.Resolved)
    (hout : s.market.outcome = MarketOutcome.Cancelled)
    (hncl : s.position.claimed = false) :
    claim_winnings now s ic =
      .ok { s with position := { s.position with claimed := true,
                                                 payout := s.position.total_staked } } := by
  unfold claim_winnings
  rw [if_neg (by simp [hres]), if_neg (by simp [hncl]), hout]

/-- C9 witness: the cancelled-market refund at a concrete position holding
5 YES and 7 NO tokens with 120 staked. -/
theorem C9_cancelled_refund_witness :
    claim_winnings 9 exS9 false =
      .ok { exS9 with position := { exS9.position with claimed := true,
                                                       payout := exS9.position.total_staked } } :=
  C9_cancelled_refund 9 exS9 false rfl rfl rfl

/-- Helper: the decided-outcome tail of `claim_winnings` never modifies the
market record. -/
theorem claim_decided_market (now : Int) (s : ClaimState) (ic iy : Bool) (wt : Nat) :
    (claim_decided now s ic iy wt).market = s.market := by
  unfold claim_decided
  split <;> rfl

/-- C10: a successful `claim_winnings` never modifies the market record —
the returned state's market (all fields: pools, fees, burn, status,
outcome) is exactly the input market; only the position and score accounts
change. -/
theorem C10_market_frame (now : Int) (s : ClaimState) (ic : Bool) (s' : ClaimState)
    (h : claim_winnings now s ic = .ok s') : s'.market = s.market := by
  unfold claim_winnings at h
  split at h
  · exact Except.noConfusion h
  · split at h
    · exact Except.noConfusion h
    · split at h
      · exact Except.noConfusion h
      · cases h; rfl
      · cases h; exact claim_decided_market ..
      · cases h; exact claim_decided_market ..

/-- C10 witness: a concrete winning claim (resolved `Accepted` market,
pools 100/200) leaves the market record unchanged. -/
theorem C10_market_frame_witness : exRes10.market = exS10.market :=
  C10_market_frame 5 exS10 false exRes10 (by rfl)

/-- Helper: on a tie, `meets_threshold` accepts exactly when there is at
least one decisive vote and the threshold is at most 50. -/
theorem meets_threshold_tie (n : Nomination) (t : Nat)
    (htie : n.votes_accept = n.votes_reject) :
    n.meets_threshold t = (decide (0 < n.votes_accept) && decide (t ≤ 50)) := by
  unfold Nomination.meets_threshold
  rcases Nat.eq_zero_or_pos n.votes_accept with h0 | hpos
  · rw [if_pos (by omega)]
    simp [h0]
  · rw [if_neg (by omega)]
    have hdiv : n.votes_accept * 100 / (n.votes_accept + n.votes_reject) = 50 := by
      rw [← htie,
        show n.votes_accept * 100 = (n.votes_accept + n.votes_accept) * 50 by ring]
      exact Nat.mul_div_cancel_left 50 (by omega)
    rw [hdiv]
    simp [hpos]

/-- Helper: `meets_threshold` with a nonzero decisive count is the exact
rational comparison `votes_accept/(votes_accept+votes_reject) ≥ t/100`. -/
theorem meets_threshold_iff (n : Nomination) (t : Nat)
    (hdec : 0 < n.votes_accept + n.votes_reject) :
    (n.meets_threshold t = true ↔
      t * (n.votes_accept + n.votes_reject) ≤ n.votes_accept * 100) := by
  unfold Nomination.meets_threshold
  rw [if_neg (by omega), decide_eq_true_eq]
  exact Nat.le_div_iff_mul_le hdec

/-- Helper: the linked-market settlement step never touches the nominee's
`dao_reputation_points`. -/
theorem settle_linked_rep_points (dk : Pubkey) (nom : Nomination) (now : Int) (wa : Bool)
    (cs : CreatorScoreDetails) (mk? : Option AdmissionMarket) :
    (settle_linked dk nom now wa cs mk?).2.dao_reputation_points
      = cs.dao_reputation_points := by
  unfold settle_linked
  cases mk? with
  | none => rfl
  | some m =>
    dsimp only
    split <;> rfl

/-- Helper: once the guards pass, the resolved nomination's `was_accepted`
is exactly `meets_threshold` at the DAO's admission threshold. -/
theorem resolve_was_accepted (now : Int) (s : ResolveState)
    (hactive : s.dao.is_active = true)
    (hnres : s.nomination.is_resolved = false)
    (hend : s.nomination.voting_ends_at < now)
    (hq : s.nomination.has_quorum s.dao.quorum = true) :
    (resolve_nomination now s).toOption.map (fun r => r.nomination.was_accepted)
      = some (s.nomination.meets_threshold s.dao.admission_threshold) := by
  unfold resolve_nomination
  rw [if_neg (by simp [hactive]), if_neg (by simp [hnres]), if_neg (not_le.mpr hend),
    if_neg (by simp [hq])]
  cases hc : s.nomination.meets_threshold s.dao.admission_threshold <;>
    simp [Except.toOption]

/-- C3 (amended): given the other guards pass, `resolveNomination` fails
with `QuorumNotReached` exactly when the total votes fall below
`⌊snapshot × quorum / 100⌋` — a floor, not the ceiling the claim states. -/
theorem C3_quorum_floor_rule (now : Int) (s : ResolveState)
    (hactive : s.dao.is_active = true)
    (hnres : s.nomination.is_resolved = false)
    (hend : s.nomination.voting_ends_at < now) :
    (resolve_nomination now s = .error .QuorumNotReached ↔
      s.nomination.votes_accept + s.nomination.votes_reject + s.nomination.votes_abstain
        < s.nomination.total_members_snapshot * s.dao.quorum / 100) := by
  unfold resolve_nomination
  rw [if_neg (by simp [hactive]), if_neg (by simp [hnres]), if_neg (not_le.mpr hend)]
  by_cases hq : s.nomination.has_quorum s.dao.quorum = false
  · rw [if_pos hq]
    simp only [Nomination.has_quorum, decide_eq_false_iff_not, not_le] at hq
    simp [hq]
  · rw [if_neg hq]
    have hq' : s.nomination.has_quorum s.dao.quorum = true := by
      cases h' : s.nomination.has_quorum s.dao.quorum
      · exact absurd h' hq
      · rfl
    simp only [Nomination.has_quorum, decide_eq_true_eq] at hq'
    constructor
    · intro h
      cases hc : s.nomination.meets_threshold s.dao.admission_threshold <;>
        rw [hc] at h <;> simp at h
    · intro h
      omega

/-- C3 witness: the spec's quorum scenario — snapshot 10, quorum 50, only
4 votes — fails with `QuorumNotReached` (required = 5). -/
theorem C3_quorum_floor_rule_witness :
    resolve_nomination 100 exS3w = .error .QuorumNotReached :=
  (C3_quorum_floor_rule 100 exS3w rfl rfl (by decide)).mpr (by decide)

/-- C4 (amended): a resolved tie is rejected when there are no decisive
votes, and otherwise is accepted exactly when `admission_threshold ≤ 50`
(the computed `accept_pct` is exactly 50). -/
theorem C4_tie_resolution (now : Int) (s : ResolveState)
    (hactive : s.dao.is_active = true)
    (hnres : s.nomination.is_resolved = false)
    (hend : s.nomination.voting_ends_at < now)
    (hq : s.nomination.has_quorum s.dao.quorum = true)
    (htie : s.nomination.votes_accept = s.nomination.votes_reject) :
    (resolve_nomination now s).toOption.map (fun r => r.nomination.was_accepted)
      = some (decide (0 < s.nomination.votes_accept) &&
              decide (s.dao.admission_threshold ≤ 50)) :=
  (resolve_was_accepted now s hactive hnres hend hq).trans
    (congrArg some (meets_threshold_tie s.nomination s.dao.admission_threshold htie))

/-- C4 witness: a 2-2 tie under threshold 60 resolves to rejection. -/
theorem C4_tie_resolution_witness :
    (resolve_nomination 100 exS4w).toOption.map (fun r => r.nomination.was_accepted)
      = some false :=
  (C4_tie_resolution 100 exS4w rfl rfl (by decide) (by decide) rfl).trans (by decide)

/-- C6: on acceptance, the nominee's `dao_reputation_points` grow by the
tiered prestige bonus keyed by the DAO's member count at resolution time
(the post-admission `member_count`, i.e. the old count plus one):
`≤10→100, ≤50→200, ≤100→300, ≤150→400, else 500`. -/
theorem C6_prestige_bracket (now : Int) (s : ResolveState)
    (hactive : s.dao.is_active = true)
    (hnres : s.nomination.is_resolved = false)
    (hend : s.nomination.voting_ends_at < now)
    (hq : s.nomination.has_quorum s.dao.quorum = true)
    (hacc : s.nomination.meets_threshold s.dao.admission_threshold = true) :
    (resolve_nomination now s).toOption.map
        (fun r => (r.dao.member_count, r.creator_score.dao_reputation_points))
      = some (s.dao.member_count + 1,
          s.creator_score.dao_reputation_points +
            (if s.dao.member_count + 1 ≤ 10 then 100
             else if s.dao.member_count + 1 ≤ 50 then 200
             else if s.dao.member_count + 1 ≤ 100 then 300
             else if s.dao.member_count + 1 ≤ 150 then 400 else 500)) := by
  unfold resolve_nomination
  rw [if_neg (by simp [hactive]), if_neg (by simp [hnres]), if_neg (not_le.mpr hend),
    if_neg (by simp [hq])]
  simp only [hacc]
  simp [Except.toOption, settle_linked_rep_points, prestige_bonus,
    apply_ite (fun c : CreatorScoreDetails => c.dao_reputation_points)]

/-- C6 witness: accepting into a 9-member DAO brings `member_count` to 10
and awards the 100-point bracket on top of the nominee's 50 points. -/
theorem C6_prestige_bracket_witness :
    (resolve_nomination 100 exS6).toOption.map
        (fun r => (r.dao.member_count, r.creator_score.dao_reputation_points))
      = some (10, 150) :=
  (C6_prestige_bracket 100 exS6 rfl rfl (by decide) (by decide) (by decide)).trans
    (by decide)

/-- C8: with a nonzero decisive count, the resolved `was_accepted` is true
exactly when `votes_accept/(votes_accept+votes_reject) ≥ threshold/100` as
exact rationals (abstains excluded), i.e.
`threshold × decisive ≤ 100 × votes_accept`. -/
theorem C8_threshold_exact (now : Int) (s : ResolveState)
    (hactive : s.dao.is_active = true)
    (hnres : s.nomination.is_resolved = false)
    (hend : s.nomination.voting_ends_at < now)
    (hq : s.nomination.has_quorum s.dao.quorum = true)
    (hdec : 0 < s.nomination.votes_accept + s.nomination.votes_reject) :
    ((resolve_nomination now s).toOption.map (fun r => r.nomination.was_accepted)
        = some true ↔
      s.dao.admission_threshold *
          (s.nomination.votes_accept + s.nomination.votes_reject)
        ≤ s.nomination.votes_accept * 100) := by
  rw [resolve_was_accepted now s hactive hnres hend hq, Option.some_inj]
  exact meets_threshold_iff s.nomination s.dao.admission_threshold hdec

/-- Helper: floor-division bound for a YES trade — the new constant product
`(y - tokens) * (n + a)` is at most `y * n` and undershoots it by less than
`n + a`. -/
theorem pool_product_bound (y n a : Nat) (hn : n ≠ 0) :
    (y - (y - y * n / (n + a))) * (n + a) ≤ y * n ∧
      y * n < (y - (y - y * n / (n + a))) * (n + a) + (n + a) := by
  have hpos : 0 < n + a := by omega
  have hle : y * n / (n + a) ≤ y := by
    have h1 : y * n / (n + a) ≤ y * n / n :=
      Nat.div_le_div_left (Nat.le_add_right n a) (by omega)
    have h2 : y * n / n = y := Nat.mul_div_left y (by omega)
    omega
  have hmod := Nat.div_add_mod (y * n) (n + a)
  have hmlt : y * n % (n + a) < n + a := Nat.mod_lt _ hpos
  generalize hq : y * n / (n + a) = q at hle hmod ⊢
  generalize hr : y * n % (n + a) = r at hmod hmlt
  have hsub : y - (y - q) = q := by omega
  rw [hsub]
  have hc : q * (n + a) = (n + a) * q := Nat.mul_comm q (n + a)
  omega

/-- Helper: floor-division bound for a NO trade. -/
theorem pool_product_bound_no (y n a : Nat) (hy : y ≠ 0) :
    (y + a) * (n - (n - y * n / (y + a))) ≤ y * n ∧
      y * n < (y + a) * (n - (n - y * n / (y + a))) + (y + a) := by
  have hpos : 0 < y + a := by omega
  have hle : y * n / (y + a) ≤ n := by
    have h1 : y * n / (y + a) ≤ y * n / y :=
      Nat.div_le_div_left (Nat.le_add_right y a) (by omega)
    have h2 : y * n / y = n := Nat.mul_div_cancel_left n (by omega)
    omega
  have hmod := Nat.div_add_mod (y * n) (y + a)
  have hmlt : y * n % (y + a) < y + a := Nat.mod_lt _ hpos
  generalize hq : y * n / (y + a) = q at hle hmod ⊢
  generalize hr : y * n % (y + a) = r at hmod hmlt
  have hsub : n - (n - q) = q := by omega
  rw [hsub]
  omega

/-- C2 (amended): after a successful `take_position` on a market with both
pools nonzero, the pool product never grows, and it shrinks by strictly
less than the post-trade opposite pool (the floor-division remainder):
`k_before - opposite_after < k_after ≤ k_before`. -/
theorem C2_product_bound (now : Int) (m : AdmissionMarket) (p? : Option MarketPosition)
    (prm : TakePositionParams) (m' : AdmissionMarket) (p' : MarketPosition)
    (hyes : m.yes_pool ≠ 0) (hno : m.no_pool ≠ 0)
    (h : take_position now m p? prm = .ok (m', p')) :
    m'.yes_pool * m'.no_pool ≤ m.yes_pool * m.no_pool ∧
      m.yes_pool * m.no_pool <
        m'.yes_pool * m'.no_pool +
          (match prm.side with
           | PositionSide.Yes => m'.no_pool
           | PositionSide.No => m'.yes_pool) := by
  cases hs : prm.side
  case Yes =>
    simp only [take_position, hs] at h
    split at h
    · exact Except.noConfusion h
    · split at h
      · exact Except.noConfusion h
      · split at h
        · exact Except.noConfusion h
        · split at h
          · exact Except.noConfusion h
          · split at h <;>
              (rw [Except.ok.injEq, Prod.mk.injEq] at h
               obtain ⟨rfl, rfl⟩ := h
               dsimp only
               simp only [AdmissionMarket.calculate_yes_tokens, hyes, if_false, ite_false,
                 if_neg hyes]
               exact pool_product_bound m.yes_pool m.no_pool
                 (prm.amount - prm.amount * m.fee_bps / 10000) hno)
  case No =>
    simp only [take_position, hs] at h
    split at h
    · exact Except.noConfusion h
    · split at h
      · exact Except.noConfusion h
      · split at h
        · exact Except.noConfusion h
        · split at h
          · exact Except.noConfusion h
          · split at h <;>
              (rw [Except.ok.injEq, Prod.mk.injEq] at h
               obtain ⟨rfl, rfl⟩ := h
               dsimp only
               simp only [AdmissionMarket.calculate_no_tokens, hno, if_false, ite_false,
                 if_neg hno]
               exact pool_product_bound_no m.yes_pool m.no_pool
                 (prm.amount - prm.amount * m.fee_bps / 10000) hyes)

/-- C2 witness: the worked trade's product 249,999,838,000 sits within
(250,000,000,000 − 599,000, 250,000,000,000]. -/
theorem C2_product_bound_witness :
    exM7t.yes_pool * exM7t.no_pool ≤ exM7.yes_pool * exM7.no_pool ∧
      exM7.yes_pool * exM7.no_pool < exM7t.yes_pool * exM7t.no_pool + exM7t.no_pool :=
  C2_product_bound 0 exM7 none exParams7 exM7t exPos7t (by decide) (by decide) rfl

/-- C7: a successful `take_position` on a market with both pools nonzero
issues exactly `pool_S - ⌊k / (pool_opposite + amount_after_fee)⌋` tokens
(`amount_after_fee = amount - ⌊amount × fee_bps / 10000⌋`,
`k = yes_pool × no_pool`) and adds `amount_after_fee` to the opposite
pool. -/
theorem C7_token_issuance (now : Int) (m : AdmissionMarket) (p : MarketPosition)
    (prm : TakePositionParams)
    (hopen : m.status = MarketStatus.Open) (hexp : now < m.expires_at)
    (hamt : 0 < prm.amount)
    (hyes : m.yes_pool ≠ 0) (hno : m.no_pool ≠ 0)
    (hslip : prm.min_tokens ≤ (match prm.side with
        | .Yes => m.calculate_yes_tokens prm.amount m.fee_bps
        | .No => m.calculate_no_tokens prm.amount m.fee_bps)) :
    (take_position now m (some p) prm).toOption.map
        (fun r => (match prm.side with
          | .Yes => (r.2.yes_tokens - p.yes_tokens, r.1.no_pool)
          | .No => (r.2.no_tokens - p.no_tokens, r.1.yes_pool)))
      = some
          (let aaf := prm.amount - prm.amount * m.fee_bps / 10000
           let k := m.yes_pool * m.no_pool
           match prm.side with
           | .Yes => (m.yes_pool - k / (m.no_pool + aaf), m.no_pool + aaf)
           | .No => (m.no_pool - k / (m.yes_pool + aaf), m.yes_pool + aaf)) := by
  cases hs : prm.side <;>
    simp only [hs] at hslip <;>
    simp [take_position, hs, hopen, not_le.mpr hexp, Nat.pos_iff_ne_zero.mp hamt,
      not_lt.mpr hslip, Except.toOption] <;>
    simp [AdmissionMarket.calculate_yes_tokens, AdmissionMarket.calculate_no_tokens,
      hyes, hno, Nat.add_sub_cancel_left]

/-- C7 witness: the spec's worked scenario — `create_market` with liquidity
1,000,000 at fee 100 bps, then `takePosition(Yes, 100,000)` — issues
exactly 82,638 YES tokens and leaves `no_pool = 599,000`. -/
theorem C7_token_issuance_witness :
    create_market exFactory 11 22 ⟨1000000, 30⟩ 0 = .ok exM7 ∧
      (take_position 0 exM7 (some (freshPosition 0)) exParams7).toOption.map
          (fun r => (r.2.yes_tokens - (freshPosition 0).yes_tokens, r.1.no_pool))
        = some (82638, 599000) :=
  ⟨rfl,
    (C7_token_issuance 0 exM7 (freshPosition 0) exParams7 rfl (by decide) (by decide)
        (by decide) (by decide) (by decide)).trans (by decide)⟩

/-- C8 witness: the spec's scenario — 6 accept, 2 reject, 2 abstain,
threshold 70 — resolves to acceptance (75% ≥ 70%). -/
theorem C8_threshold_exact_witness :
    (resolve_nomination 100 exS8).toOption.map (fun r => r.nomination.was_accepted)
      = some true :=
  (C8_threshold_exact 100 exS8 rfl rfl (by decide) (by decide) (by decide)).mpr
    (by decide)

end Sovereign
